import Mathlib

set_option linter.unusedVariables false
set_option linter.unreachableTactic false
set_option linter.unusedTactic false
set_option maxRecDepth 8000

/-!
# Verification of the support-case MCP server against its specification

This development embeds the behaviourally relevant parts of the repository
(`salesforce_client.py`, `server.py`) as executable Lean definitions and
settles the frozen claims about them.

Modelling conventions:
* Python `None` for an optional string argument is modelled as `Option.none`;
  interpolating such a value into an f-string renders the text `"None"`
  (`pyFormat`), and Python truthiness of an optional string is `pyFalsy`.
* The remote CRM is modelled as an oracle (`SF.Backend`): each query or REST
  operation reads its outcome from the oracle.  Adapter functions additionally
  return the list of upstream calls they issue (`SF.Call`), in program order.
* Exception flow around connection establishment is modelled separately
  (`Conn` namespace) with `Except`: the `connect` step sits outside the
  `try` blocks in the source, so its errors propagate.
* Single quote and backslash characters are built from character literals to
  keep string literals plain.
-/

/-- The single-quote character as a one-character string. -/
def sqS : String := String.mk ['\'']

/-- The backslash character as a one-character string. -/
def bsS : String := String.mk ['\\']

/-- How Python renders an optional string inside an f-string: `None` becomes
the text `"None"`, a string stands for itself. -/
def pyFormat : Option String → String
  | none => "None"
  | some s => s

/-- Python truthiness test `not x` for an optional string: `None` and the
empty string are falsy. -/
def pyFalsy (o : Option String) : Bool :=
  (o.getD "") = ""

/-- Python `x or 'None'` on an optional string: a falsy value renders as
`"None"`. -/
def pyOrNone (o : Option String) : String :=
  if pyFalsy o then "None" else o.getD ""

/-- Contiguous-substring test, the semantics of Python's `needle in haystack`
on strings. -/
def strContains (haystack needle : String) : Bool :=
  (List.range (haystack.data.length + 1)).any
    (fun i => needle.data.isPrefixOf (haystack.data.drop i))

/-- Fuelled pass of `listReplace`; the fuel is the input length, and every
step consumes at least one character, so the fuel never runs out. -/
def listReplaceAux (needle repl : List Char) : Nat → List Char → List Char
  | _, [] => []
  | 0, l => l
  | fuel + 1, c :: rest =>
    if needle.isPrefixOf (c :: rest) ∧ needle ≠ [] then
      repl ++ listReplaceAux needle repl fuel (rest.drop (needle.length - 1))
    else c :: listReplaceAux needle repl fuel rest

/-- Left-to-right non-overlapping replacement of a character sequence, the
semantics of Python's `str.replace` (an empty needle is treated as matching
nowhere; every needle used in the source is non-empty). -/
def listReplace (needle repl l : List Char) : List Char :=
  listReplaceAux needle repl l.length l

/-- Python's `str.replace` on strings. -/
def pyReplace (s needle repl : String) : String :=
  String.mk (listReplace needle.data repl.data s.data)

/-- Python's `str.lower` (character-wise lowering). -/
def pyLower (s : String) : String :=
  String.mk (s.data.map Char.toLower)

/-- Python's `str.strip` with no argument: whitespace removed from both
ends. -/
def pyStrip (s : String) : String :=
  String.mk (((s.data.dropWhile Char.isWhitespace).reverse.dropWhile
    Char.isWhitespace).reverse)

/-- Accumulator pass of `pyWords`: split at whitespace runs, keeping no
empty pieces. -/
def wordsAux (acc : List Char) : List Char → List (List Char)
  | [] => if acc = [] then [] else [acc.reverse]
  | c :: rest =>
    if c.isWhitespace then
      if acc = [] then wordsAux [] rest
      else acc.reverse :: wordsAux [] rest
    else wordsAux (c :: acc) rest

/-- Python's `str.split` with no argument: the whitespace-separated words,
with no empty pieces. -/
def pyWords (s : String) : List String :=
  (wordsAux [] s.data).map String.mk

namespace SF

/-! ## Reserved-character escaping (`_escape_sosl`, `_escape_soql`) -/

/-- The reserved SOSL characters listed in `_escape_sosl`. -/
def reserved_sosl : List Char :=
  ['\\', '?', '&', '|', '!', '{', '}', '[', ']', '(', ')',
   '^', '~', '*', ':', '"', '\'', '+', '-']

/-- Character-level body of `_escape_sosl`: each reserved character is
prefixed with a backslash, every other character is copied. -/
def escapeSoslChars : List Char → List Char
  | [] => []
  | c :: rest =>
    if c ∈ reserved_sosl then '\\' :: c :: escapeSoslChars rest
    else c :: escapeSoslChars rest

/-- `_escape_sosl` from `salesforce_client.py`.  The early
`if not text: return text` branch coincides with the loop on the empty
string. -/
def _escape_sosl (text : String) : String :=
  String.mk (escapeSoslChars text.data)

/-- Replace every occurrence of a single character by a replacement
character list: the semantics of Python's `str.replace` for a
one-character needle. -/
def replaceChar (target : Char) (repl : List Char) : List Char → List Char
  | [] => []
  | c :: rest =>
    if c = target then repl ++ replaceChar target repl rest
    else c :: replaceChar target repl rest

/-- `_escape_soql` from `salesforce_client.py`:
`text.replace("'", "\\'").replace("\\", "\\\\")` — first every quote is
turned into backslash-quote, then every backslash (including the ones just
introduced) is doubled. -/
def _escape_soql (text : String) : String :=
  String.mk (replaceChar '\\' ['\\', '\\'] (replaceChar '\'' ['\\', '\''] text.data))

/-- A SOSL consumer's reading of an escaped region: a backslash makes the
next character literal, every other character stands for itself. -/
def soslUnescape : List Char → List Char
  | [] => []
  | c :: rest =>
    if c = '\\' then
      match rest with
      | [] => [c]
      | d :: rest2 => d :: soslUnescape rest2
    else c :: soslUnescape rest

/-- A SOQL string-literal consumer's reading of the characters following the
opening quote: backslash escapes the next character, an unescaped quote
terminates the literal, anything else stands for itself.  The result is the
matched literal. -/
def soqlLiteral : List Char → List Char
  | c :: rest =>
    if c = '\\' then
      match rest with
      | [] => []
      | d :: rest2 => d :: soqlLiteral rest2
    else if c = '\'' then []
    else c :: soqlLiteral rest
  | [] => []

/-! ## The closure-readiness classifier

Both `get_case_summary_data` and `get_comprehensive_case_data` contain the
same three-way conditional on the two status fields; they are kept as two
definitions so each can be compared with its source occurrence. -/

/-- The closure-readiness conditional of `get_case_summary_data`
(`salesforce_client.py` lines 223–228). -/
def closure_readiness_summary (fix_status validation_status : String) : String :=
  if fix_status = "Implemented" ∧ validation_status = "Completed" then "ready"
  else if fix_status = "Implemented" then "pending_validation"
  else "in_progress"

/-- The closure-readiness conditional of `get_comprehensive_case_data`
(`salesforce_client.py` lines 323–328). -/
def closure_readiness_comprehensive (fix_status validation_status : String) : String :=
  if fix_status = "Implemented" ∧ validation_status = "Completed" then "ready"
  else if fix_status = "Implemented" then "pending_validation"
  else "in_progress"

/-! ## CRM records

The fields of a `Case` record that the adapter selects and uses, keyed by
`CaseNumber`.  A `none` field models a Salesforce `null` (or an absent key in
the returned dict). -/

/-- A CRM case record with the fields the adapter queries. -/
structure CaseRec where
  id : String
  caseNumber : String
  subject : String
  description : Option String := none
  status : String
  priority : String
  contactName : Option String := none
  contactEmail : Option String := none
  createdDate : Option String := none
  lastModifiedDate : Option String := none
  fix_status : Option String := none
  validation_status : Option String := none
  deriving DecidableEq, Repr

/-- A `CaseComment` child record. -/
structure CommentRec where
  body : String
  createdDate : String
  author : String
  deriving DecidableEq, Repr

/-- A `CaseHistory` field-change record. -/
structure HistRec where
  field : String
  oldValue : String
  newValue : String
  createdDate : String
  author : String
  deriving DecidableEq, Repr

/-- A `CaseFeed` item. -/
structure FeedRec where
  body : String
  feedType : String
  createdDate : String
  author : String
  deriving DecidableEq, Repr

/-- A `CaseArticle` junction row with its `KnowledgeArticle` fields. -/
structure ArticleRec where
  articleId : String
  title : String
  urlName : String
  deriving DecidableEq, Repr

/-- An `EmailMessage` record. -/
structure EmailRec where
  emailId : String
  subject : String
  fromAddr : String
  toAddr : String
  ccAddr : Option String := none
  date : String
  incoming : Bool
  textBody : Option String := none
  status : String := ""
  deriving DecidableEq, Repr

/-- One upstream CRM interaction, recorded in program order.  `fuzzySearch`
marks entry into `_search_cases_fuzzy` (whose body may or may not issue the
SOQL query `queryFuzzy`). -/
inductive Call where
  | queryCase (caseNumber : String)
  | queryCaseStatus (caseNumber : String)
  | queryCaseContact (caseNumber : String)
  | queryComments (caseId : String)
  | queryHistory (caseId : String)
  | queryFeed (caseId : String)
  | queryRelated (caseId : String)
  | queryArticles (caseId : String)
  | queryEmails (caseId : String)
  | soslSearch (q : String)
  | fuzzySearch (q : String)
  | queryFuzzy (q : String)
  | caseUpdate (caseId : String)
  | commentCreate (caseId : String)
  | kavCreate
  | kaCreate
  | caseArticleLink (caseId : String)
  | emailSend (addr : String)
  | emailMsgCreate (caseId : String)
  | describeCall (objectName : String)
  deriving DecidableEq, Repr

/-- The CRM as an oracle, observed through an already-established connection
(the `Conn` namespace models connection establishment itself).  Read oracles
give the records a query returns; a query that raises is observationally the
sentinel result, because every read wraps its body in `try/except` returning
the sentinel.  Write oracles give the outcome of the REST call, `Except`
capturing a raised error. -/
structure Backend where
  cases : String → Option CaseRec
  comments : String → List CommentRec
  history : String → List HistRec
  feed : String → List FeedRec
  relatedCases : String → String → List CaseRec
  articles : String → List ArticleRec
  emails : String → List EmailRec
  sosl : String → List CaseRec
  soqlCases : String → List CaseRec
  daysSince : Option String → Option Nat
  caseUpdateResult : String → List (String × String) → Except String Unit
  commentCreateResult : Except String String
  kavCreateResult : Except String String
  kaCreateResult : Except String String
  caseArticleLinkResult : Except String Unit
  emailSendResult : Except String Unit
  emailMessageCreateResult : Except String String
  describeResult : String → Except String Unit

/-! ## Query strings

The SOQL/SOSL strings the adapter constructs.  The source writes several of
them as triple-quoted Python strings; their inert indentation and line breaks
are normalised to single spaces here. -/

/-- The `get_case` SOQL query. -/
def caseQuery (case_number : String) : String :=
  "SELECT Id, CaseNumber, Subject, Description, Status, Priority, Contact.Name FROM Case WHERE CaseNumber = " ++
    sqS ++ case_number ++ sqS ++ " LIMIT 1"

/-- The `_search_cases_sosl` SOSL query built from the escaped search text. -/
def soslQuery (escaped : String) : String :=
  "FIND \x7b" ++ escaped ++
    "\x7d IN ALL FIELDS RETURNING Case(Id, CaseNumber, Subject, Status, Description)"

/-- One `LIKE` pattern operand of the fuzzy search: `'%<escaped term>%'`. -/
def likePattern (term : String) : String :=
  sqS ++ "%" ++ _escape_soql term ++ "%" ++ sqS

/-- The two `LIKE` conditions `_search_cases_fuzzy` adds per term. -/
def likeCondPair (term : String) : List String :=
  ["Subject LIKE " ++ likePattern term, "Description LIKE " ++ likePattern term]

/-- The `WHERE` clause of the fuzzy search over the filtered terms. -/
def fuzzyWhere (terms : List String) : String :=
  String.intercalate " OR " ((terms.map likeCondPair).flatten)

/-- The `_search_cases_fuzzy` SOQL query. -/
def fuzzyQuery (where_clause : String) : String :=
  "SELECT Id, CaseNumber, Subject, Status, Description FROM Case WHERE " ++
    where_clause ++ " ORDER BY LastModifiedDate DESC LIMIT 50"

/-- The `get_case_comments` SOQL query.  It carries no `LIMIT` clause. -/
def commentsQuery (case_id : String) : String :=
  "SELECT CommentBody, CreatedDate, CreatedBy.Name FROM CaseComment WHERE ParentId = " ++
    sqS ++ case_id ++ sqS ++ " ORDER BY CreatedDate DESC"

/-- The `get_case_history` SOQL query. -/
def historyQuery (case_id : String) : String :=
  "SELECT Field, OldValue, NewValue, CreatedDate, CreatedBy.Name FROM CaseHistory WHERE CaseId = " ++
    sqS ++ case_id ++ sqS ++ " ORDER BY CreatedDate DESC LIMIT 20"

/-- The `get_case_feed` SOQL query. -/
def feedQuery (case_id : String) : String :=
  "SELECT Body, Type, CreatedDate, CreatedBy.Name FROM CaseFeed WHERE ParentId = " ++
    sqS ++ case_id ++ sqS ++ " ORDER BY CreatedDate DESC LIMIT 20"

/-- The `get_related_cases` SOQL query over the keyword `LIKE` conditions. -/
def relatedQuery (case_id conds : String) : String :=
  "SELECT Id, CaseNumber, Subject, Status, CreatedDate FROM Case WHERE Id != " ++
    sqS ++ case_id ++ sqS ++ " AND (" ++ conds ++ ") ORDER BY CreatedDate DESC LIMIT 10"

/-- The `get_case_articles` SOQL query. -/
def articlesQuery (case_id : String) : String :=
  "SELECT KnowledgeArticleId, KnowledgeArticle.Title, KnowledgeArticle.UrlName FROM CaseArticle WHERE CaseId = " ++
    sqS ++ case_id ++ sqS ++ " LIMIT 10"

/-- The `get_case_emails` SOQL query. -/
def emailsQuery (case_id : String) : String :=
  "SELECT Id, Subject, TextBody, HtmlBody, FromAddress, ToAddress, CcAddress, BccAddress, MessageDate, Incoming, Status, CreatedDate, CreatedById FROM EmailMessage WHERE RelatedToId = " ++
    sqS ++ case_id ++ sqS ++ " ORDER BY MessageDate DESC LIMIT 50"

/-! ## Adapter read operations (traced)

Each adapter method returns its result together with the list of upstream
calls it issued, in order.  The connection step at the top of each method is
handled in the `Conn` namespace; here the connection is established. -/

/-- `get_case`: query the case by `CaseNumber`; a raised query error is
caught and is observationally the empty result. -/
def get_case (b : Backend) (case_number : Option String) :
    Option CaseRec × List Call :=
  let key := pyFormat case_number
  (b.cases key, [Call.queryCase key])

/-- `get_case_with_status`: the same lookup selecting the custom status
fields as well. -/
def get_case_with_status (b : Backend) (case_number : Option String) :
    Option CaseRec × List Call :=
  let key := pyFormat case_number
  (b.cases key, [Call.queryCaseStatus key])

/-- `get_case_comments` (no result-size cap in the query). -/
def get_case_comments (b : Backend) (case_id : String) :
    List CommentRec × List Call :=
  (b.comments case_id, [Call.queryComments case_id])

/-- `get_case_history`. -/
def get_case_history (b : Backend) (case_id : String) :
    List HistRec × List Call :=
  (b.history case_id, [Call.queryHistory case_id])

/-- `get_case_feed`. -/
def get_case_feed (b : Backend) (case_id : String) :
    List FeedRec × List Call :=
  (b.feed case_id, [Call.queryFeed case_id])

/-- The keyword extraction of `get_related_cases`: words of the subject
longer than three characters, first three of them. -/
def relatedWords (subject : String) : List String :=
  ((pyWords subject).filter (fun w => 3 < w.length)).take 3

/-- `get_related_cases`: with no usable keywords it returns the empty list
without touching the CRM. -/
def get_related_cases (b : Backend) (case_id subject : String) :
    List CaseRec × List Call :=
  let words := relatedWords subject
  if words = [] then ([], [])
  else
    let conds := String.intercalate " OR "
      (words.map (fun w => "Subject LIKE " ++ likePattern w))
    (b.relatedCases case_id conds, [Call.queryRelated case_id])

/-- `get_case_articles`. -/
def get_case_articles (b : Backend) (case_id : String) :
    List ArticleRec × List Call :=
  (b.articles case_id, [Call.queryArticles case_id])

/-- `get_case_emails` (the per-record reshaping is elided; the records stand
for the shaped dictionaries). -/
def get_case_emails (b : Backend) (case_id : String) :
    List EmailRec × List Call :=
  (b.emails case_id, [Call.queryEmails case_id])

/-! ## The two-tier case search -/

/-- `_search_cases_sosl`: escape the text and issue the SOSL search; a `None`
query interpolates as the text `"None"` inside the braces. -/
def _search_cases_sosl (b : Backend) (query_text : Option String) :
    List CaseRec × List Call :=
  let q := soslQuery (pyFormat (query_text.map _escape_sosl))
  (b.sosl q, [Call.soslSearch q])

/-- The term filter of `_search_cases_fuzzy`: whitespace-split, stripped,
terms shorter than two characters dropped. -/
def fuzzyTerms (query_text : String) : List String :=
  ((pyWords query_text).map pyStrip).filter (fun t => 2 ≤ t.length)

/-- `_search_cases_fuzzy`.  Calling it on `None` raises inside the `try`
(`None.split()`), which the `except` turns into the empty result; with no
usable terms it returns early without issuing the query. -/
def _search_cases_fuzzy (b : Backend) (query_text : Option String) :
    List CaseRec × List Call :=
  match query_text with
  | none => ([], [Call.fuzzySearch "None"])
  | some q =>
    let terms := fuzzyTerms q
    if terms = [] then ([], [Call.fuzzySearch q])
    else
      let query := fuzzyQuery (fuzzyWhere terms)
      (b.soqlCases query, [Call.fuzzySearch q, Call.queryFuzzy query])

/-- `search_cases`: SOSL first; the fuzzy SOQL search runs only when the
SOSL result list is empty. -/
def search_cases (b : Backend) (query_text : Option String) :
    List CaseRec × List Call :=
  let (results, t1) := _search_cases_sosl b query_text
  if results = [] then
    let (fuzzy, t2) := _search_cases_fuzzy b query_text
    (fuzzy, t1 ++ t2)
  else (results, t1)

/-! ## Composite case data -/

/-- The `case_info` dictionary shared by the composite reads. -/
structure CaseInfo where
  caseNumber : String
  subject : String
  description : Option String
  status : String
  priority : String
  createdDate : Option String
  lastModifiedDate : Option String
  contactName : Option String
  daysSinceUpdate : Option Nat := none
  deriving DecidableEq, Repr

/-- The `technical_summary` dictionary. -/
structure TechSummary where
  fix_status : String
  validation_status : String
  closure_readiness : String
  deriving DecidableEq, Repr

/-- The result of `get_case_summary_data`. -/
structure SummaryData where
  case_info : CaseInfo
  technical_summary : TechSummary
  history : List HistRec
  recent_comments : List CommentRec
  feed_items : List FeedRec
  deriving DecidableEq, Repr

/-- `get_case_summary_data`: status lookup, then history, comments and feed;
the closure-readiness conditional classifies the two status fields (a
missing or null field behaves as the empty string). -/
def get_case_summary_data (b : Backend) (case_number : Option String) :
    Option SummaryData × List Call :=
  match get_case_with_status b case_number with
  | (none, t0) => (none, t0)
  | (some c, t0) =>
    let (history, t1) := get_case_history b c.id
    let (comments, t2) := get_case_comments b c.id
    let (feed, t3) := get_case_feed b c.id
    let fix_status := c.fix_status.getD ""
    let validation_status := c.validation_status.getD ""
    (some
      { case_info :=
          { caseNumber := c.caseNumber, subject := c.subject,
            description := c.description, status := c.status,
            priority := c.priority, createdDate := c.createdDate,
            lastModifiedDate := c.lastModifiedDate,
            contactName := c.contactName }
        technical_summary :=
          { fix_status := fix_status, validation_status := validation_status,
            closure_readiness :=
              closure_readiness_summary fix_status validation_status }
        history := history.take 10
        recent_comments := comments.take 5
        feed_items := feed.take 10 },
      t0 ++ t1 ++ t2 ++ t3)

/-- The `metrics` dictionary of `get_comprehensive_case_data`. -/
structure Metrics where
  total_comments : Nat
  total_history_changes : Option Nat := none
  related_cases_count : Option Nat := none
  articles_count : Option Nat := none
  has_recent_activity : Bool
  days_since_update : Option Nat := none
  deriving DecidableEq, Repr

/-- The result of `get_comprehensive_case_data`. -/
structure ComprehensiveData where
  case_info : CaseInfo
  technical_summary : TechSummary
  history : List HistRec := []
  recent_comments : List CommentRec := []
  feed_items : List FeedRec := []
  related_cases : List CaseRec := []
  knowledge_articles : List ArticleRec := []
  metrics : Option Metrics := none
  risk_factors : Option (List String) := none
  deriving DecidableEq, Repr

/-- The risk-factor checks of `get_comprehensive_case_data`, in source
order; each check is independent. -/
def riskFactors (days_since_update : Option Nat) (comments : List CommentRec)
    (priority closure_readiness : String) (related : List CaseRec) :
    List String :=
  (if (days_since_update.getD 0) > 14 then ["No activity for 14+ days"] else []) ++
  (if comments.length = 0 then ["No comments on case"] else []) ++
  (if priority = "High" ∧ closure_readiness ≠ "ready" then
    ["High priority case not yet resolved"] else []) ++
  (if 3 < related.length then
    ["Multiple similar cases exist - possible systemic issue"] else [])

/-- `get_comprehensive_case_data`: the status lookup, the closure-readiness
conditional (with `or ''` null-normalisation), the wall-clock
`days_since_update` read from the oracle, then the quick or full fetch
plan. -/
def get_comprehensive_case_data (b : Backend) (case_number : Option String)
    (depth : String) : Option ComprehensiveData × List Call :=
  match get_case_with_status b case_number with
  | (none, t0) => (none, t0)
  | (some c, t0) =>
    let fix_status := c.fix_status.getD ""
    let validation_status := c.validation_status.getD ""
    let closure_readiness :=
      closure_readiness_comprehensive fix_status validation_status
    let days_since_update := b.daysSince c.lastModifiedDate
    let info : CaseInfo :=
      { caseNumber := c.caseNumber, subject := c.subject,
        description := c.description, status := c.status,
        priority := c.priority, createdDate := c.createdDate,
        lastModifiedDate := c.lastModifiedDate,
        contactName := c.contactName,
        daysSinceUpdate := days_since_update }
    let tech : TechSummary :=
      { fix_status := fix_status, validation_status := validation_status,
        closure_readiness := closure_readiness }
    if depth = "quick" then
      let (comments, t1) := get_case_comments b c.id
      (some
        { case_info := info, technical_summary := tech
          metrics := some
            { total_comments := comments.length
              has_recent_activity :=
                days_since_update.elim false (fun d => d < 7)
              days_since_update := days_since_update } },
        t0 ++ t1)
    else
      let (history, t1) := get_case_history b c.id
      let (comments, t2) := get_case_comments b c.id
      let (feed, t3) := get_case_feed b c.id
      let (related, t4) := get_related_cases b c.id c.subject
      let (articles, t5) := get_case_articles b c.id
      (some
        { case_info := info, technical_summary := tech
          history := history.take 10
          recent_comments := comments.take 5
          feed_items := feed.take 10
          related_cases := related.take 5
          knowledge_articles := articles
          metrics := some
            { total_comments := comments.length
              total_history_changes := some history.length
              related_cases_count := some related.length
              articles_count := some articles.length
              has_recent_activity :=
                days_since_update.elim false (fun d => d < 7)
              days_since_update := days_since_update }
          risk_factors := some
            (riskFactors days_since_update comments c.priority
              closure_readiness related) },
        t0 ++ t1 ++ t2 ++ t3 ++ t4 ++ t5)

/-! ## Write and email operations -/

/-- The result dictionaries of the write/email operations, one record with
optional fields for the keys each operation sets. -/
structure OpResult where
  success : Bool
  error : Option String := none
  case_number : Option String := none
  case_id : Option String := none
  draft : Bool := false
  to_email : Option String := none
  to_name : Option String := none
  subject : Option String := none
  body : Option String := none
  sent_to : Option String := none
  updated_fields : List String := []
  new_values : List (String × String) := []
  comment_id : Option String := none
  is_public : Option Bool := none
  article_id : Option String := none
  title : Option String := none
  url_name : Option String := none
  linked_case : Option String := none
  articleStatus : Option String := none
  message : Option String := none
  deriving DecidableEq, Repr

/-- `draft_case_email`: one case-with-contact query, then pure shaping; no
email is sent. -/
def draft_case_email (b : Backend) (case_number : Option String)
    (message : String) : OpResult × List Call :=
  let key := pyFormat case_number
  match b.cases key with
  | none =>
    ({ success := false, error := some ("Case " ++ key ++ " not found") },
      [Call.queryCaseContact key])
  | some c =>
    match c.contactEmail with
    | none =>
      ({ success := false, error := some "No contact email found for this case",
         case_number := some key }, [Call.queryCaseContact key])
    | some email =>
      ({ success := true, draft := true, case_number := some key,
         case_id := some c.id, to_email := some email,
         to_name := some (c.contactName.getD "Customer"),
         subject := some ("Re: Case " ++ c.caseNumber ++ " - " ++ c.subject),
         body := some message }, [Call.queryCaseContact key])

/-- `send_case_email`: one case-with-contact query, the email REST action,
and on its failure the `EmailMessage.create` fallback; a fallback failure is
caught by the outer `except`. -/
def send_case_email (b : Backend) (case_number : Option String)
    (subject body : String) : OpResult × List Call :=
  let key := pyFormat case_number
  match b.cases key with
  | none =>
    ({ success := false, error := some ("Case " ++ key ++ " not found") },
      [Call.queryCaseContact key])
  | some c =>
    match c.contactEmail with
    | none =>
      ({ success := false, error := some "No contact email found for this case" },
        [Call.queryCaseContact key])
    | some email =>
      let ok : OpResult :=
        { success := true, case_number := some key, case_id := some c.id,
          sent_to := some email, subject := some subject,
          message := some ("Email sent to " ++ email ++ " and logged to case " ++ key) }
      match b.emailSendResult with
      | Except.ok _ => (ok, [Call.queryCaseContact key, Call.emailSend email])
      | Except.error _ =>
        match b.emailMessageCreateResult with
        | Except.ok _ =>
          (ok, [Call.queryCaseContact key, Call.emailSend email,
                Call.emailMsgCreate c.id])
        | Except.error e2 =>
          ({ success := false, error := some e2 },
            [Call.queryCaseContact key, Call.emailSend email,
             Call.emailMsgCreate c.id])

/-- `update_case`: `get_case` first; a missing case short-circuits into the
not-found error result with no further upstream call. -/
def update_case (b : Backend) (case_number : Option String)
    (fields : List (String × String)) : OpResult × List Call :=
  match get_case b case_number with
  | (none, t0) =>
    ({ success := false,
       error := some ("Case " ++ pyFormat case_number ++ " not found") }, t0)
  | (some c, t0) =>
    match b.caseUpdateResult c.id fields with
    | Except.error e =>
      ({ success := false, error := some e }, t0 ++ [Call.caseUpdate c.id])
    | Except.ok _ =>
      ({ success := true, case_number := some (pyFormat case_number),
         case_id := some c.id, updated_fields := fields.map Prod.fst,
         new_values := fields,
         message := some ("Case " ++ pyFormat case_number ++ " updated successfully") },
        t0 ++ [Call.caseUpdate c.id])

/-- `add_case_comment`: `get_case` first, then the `CaseComment.create`
call. -/
def add_case_comment (b : Backend) (case_number : Option String)
    (comment : String) (is_public : Bool) : OpResult × List Call :=
  match get_case b case_number with
  | (none, t0) =>
    ({ success := false,
       error := some ("Case " ++ pyFormat case_number ++ " not found") }, t0)
  | (some c, t0) =>
    match b.commentCreateResult with
    | Except.error e =>
      ({ success := false, error := some e }, t0 ++ [Call.commentCreate c.id])
    | Except.ok cid =>
      ({ success := true, case_number := some (pyFormat case_number),
         case_id := some c.id, comment_id := some cid,
         is_public := some is_public,
         message := some ((if is_public then "Public" else "Internal") ++
           " comment added to case " ++ pyFormat case_number) },
        t0 ++ [Call.commentCreate c.id])

/-- The URL-name generation of `create_knowledge_article`: lowercase, spaces
and slashes to dashes, first fifty characters, then only alphanumerics and
dashes kept. -/
def genUrlName (title : String) : String :=
  String.mk (((pyReplace (pyReplace (pyLower title) " " "-") "/" "-").data.take 50).filter
    (fun c => c.isAlphanum ∨ c = '-'))

/-- `create_knowledge_article`: the `Knowledge__kav` create, on failure the
`KnowledgeArticle` fallback; if either succeeds, the optional case link is
attempted best-effort (its failure only logged) and the success result is
returned with `linked_case` echoing the argument. -/
def create_knowledge_article (b : Backend) (title summary content : String)
    (url_name case_number : Option String) : OpResult × List Call :=
  let url := if pyFalsy url_name then genUrlName title else url_name.getD ""
  let created : Option (String × List Call) :=
    match b.kavCreateResult with
    | Except.ok aid => some (aid, [Call.kavCreate])
    | Except.error _ =>
      match b.kaCreateResult with
      | Except.ok aid => some (aid, [Call.kavCreate, Call.kaCreate])
      | Except.error _ => none
  match created with
  | none =>
    let kavErr := match b.kavCreateResult with
      | Except.error e => e
      | Except.ok _ => ""
    ({ success := false,
       error := some ("Could not create Knowledge Article. Error: " ++ kavErr ++
         ". Knowledge may not be enabled or accessible in this org.") },
      [Call.kavCreate, Call.kaCreate])
  | some (article_id, t0) =>
    let linkTrace :=
      if ¬ pyFalsy case_number ∧ article_id ≠ "" then
        let (caseOpt, t1) := get_case b case_number
        t1 ++ (match caseOpt with
          | some c => [Call.caseArticleLink c.id]
          | none => [])
      else []
    ({ success := true, article_id := some article_id, title := some title,
       url_name := some url, linked_case := case_number,
       articleStatus := some "Draft",
       message := some ("Knowledge Article \"" ++ title ++
         "\" created successfully. Status: Draft (needs publishing).") },
      t0 ++ linkTrace)

/-! ## The tool dispatcher (`server.py`: `call_tool`)

Tool arguments form a partial map; `arguments.get(key)` of an absent key is
`None`.  Each handler's response is one text content block; the not-found
and usage-error texts are transcribed exactly, while the decorated rendering
of a found case (headings, suggestions, emoji) is kept as the ordered list
of interpolated data items (`ToolOut.formatted`): no claim depends on that
decoration. -/

/-- The argument map of a tool invocation: each known key, absent by
default. -/
structure ToolArgs where
  query : Option String := none
  id : Option String := none
  case_number : Option String := none
  query_string : Option String := none
  depth : Option String := none
  customer_question : Option String := none
  additional_context : Option String := none
  object_name : Option String := none
  message : Option String := none
  subject : Option String := none
  body : Option String := none
  fields : Option (List (String × String)) := none
  comment : Option String := none
  is_public : Option Bool := none
  title : Option String := none
  summary : Option String := none
  content : Option String := none
  deriving DecidableEq, Repr

/-- A handler response: one exact text block, or a formatted page carrying
its interpolated data items. -/
inductive ToolOut where
  | text (s : String)
  | formatted (parts : List String)
  deriving DecidableEq, Repr

/-- The required arguments each tool declares in its `list_tools` input
schema (the tools relevant to the claims). -/
def requiredArgs : String → List String
  | "search" => ["query"]
  | "fetch" => ["id"]
  | "get_case_details" => ["case_number"]
  | "search_cases" => ["query_string"]
  | "get_case_history" => ["case_number"]
  | "get_case_timeline" => ["case_number"]
  | "get_related_cases" => ["case_number"]
  | "get_case_articles" => ["case_number"]
  | "get_case_summary" => ["case_number"]
  | "suggest_knowledge_article" => ["case_number"]
  | "analyze_case" => ["case_number"]
  | "follow_up_case" => ["case_number", "customer_question"]
  | "triage_new_case" => ["case_number"]
  | "handle_request" => ["request"]
  | "describe_sobject" => ["object_name"]
  | "get_case_emails" => ["case_number"]
  | "draft_case_email" => ["case_number", "message"]
  | "send_case_email" => ["case_number", "subject", "body"]
  | "update_case" => ["case_number", "fields"]
  | "add_case_comment" => ["case_number", "comment"]
  | "create_knowledge_article" => ["title", "summary", "content"]
  | _ => []

/-- `call_tool` from `server.py`: the `if/elif` dispatch on the tool name.
`none` models the trailing `raise ValueError` for an unknown name.  The
`handle_request` branch is modelled separately (`classifyIntent`,
`handle_request`) because it re-enters `call_tool`. -/
def callTool (b : Backend) (name : String) (args : ToolArgs) :
    Option (ToolOut × List Call) :=
  if name = "search" then
    let (results, t) := search_cases b args.query
    if results = [] then
      some (ToolOut.text ("No cases found matching that query.\n\n💡 SUGGESTED: Try different keywords or use " ++
        sqS ++ "search_cases" ++ sqS ++ " for broader results."), t)
    else
      some (ToolOut.formatted (results.map
        (fun r => r.caseNumber ++ ": " ++ r.subject ++ " (" ++ r.status ++ ")")), t)
  else if name = "fetch" then
    let key := pyFormat args.id
    match get_case b args.id with
    | (none, t) => some (ToolOut.text ("Case " ++ key ++ " not found."), t)
    | (some c, t) =>
      let (comments, t2) := get_case_comments b c.id
      some (ToolOut.formatted ([c.caseNumber, c.subject, c.status, c.priority,
        pyFormat c.description] ++ comments.map CommentRec.body), t ++ t2)
  else if name = "get_case_details" then
    let key := pyFormat args.case_number
    match get_case b args.case_number with
    | (none, t) => some (ToolOut.text ("Case " ++ key ++ " not found."), t)
    | (some c, t) =>
      let (comments, t2) := get_case_comments b c.id
      some (ToolOut.formatted ([c.caseNumber, c.subject, c.status, c.priority,
        pyFormat c.description] ++ comments.map CommentRec.body), t ++ t2)
  else if name = "search_cases" then
    let (results, t) := search_cases b args.query_string
    if results = [] then
      some (ToolOut.text "No cases found matching that query.\n\n💡 SUGGESTED: Try broader keywords or check spelling.", t)
    else
      some (ToolOut.formatted (("Found " ++ toString results.length ++ " cases:") ::
        results.map (fun r => r.caseNumber ++ " " ++ r.subject ++ " (" ++ r.status ++ ")")), t)
  else if name = "get_case_history" then
    let key := pyFormat args.case_number
    match get_case b args.case_number with
    | (none, t) => some (ToolOut.text ("Case " ++ key ++ " not found."), t)
    | (some c, t) =>
      let (history, t2) := get_case_history b c.id
      if history = [] then
        some (ToolOut.text ("No history found for case " ++ key ++
          ".\n\n💡 SUGGESTED: Check get_case_timeline for activity feed."), t ++ t2)
      else
        some (ToolOut.formatted (("Case " ++ key ++ " - Field Change History:") ::
          history.map HistRec.field), t ++ t2)
  else if name = "get_case_timeline" then
    let key := pyFormat args.case_number
    match get_case b args.case_number with
    | (none, t) => some (ToolOut.text ("Case " ++ key ++ " not found."), t)
    | (some c, t) =>
      let (feed, t2) := get_case_feed b c.id
      if feed = [] then
        some (ToolOut.text ("No timeline/feed found for case " ++ key ++
          ".\n\n💡 SUGGESTED: Check get_case_history for field changes."), t ++ t2)
      else
        some (ToolOut.formatted (("Case " ++ key ++ " - Activity Timeline:") ::
          feed.map FeedRec.body), t ++ t2)
  else if name = "get_case_summary" then
    let key := pyFormat args.case_number
    match get_case_summary_data b args.case_number with
    | (none, t) => some (ToolOut.text ("Case " ++ key ++ " not found."), t)
    | (some d, t) =>
      some (ToolOut.formatted [d.case_info.caseNumber, d.case_info.subject,
        d.case_info.status, d.technical_summary.fix_status,
        d.technical_summary.validation_status,
        d.technical_summary.closure_readiness], t)
  else if name = "suggest_knowledge_article" then
    let key := pyFormat args.case_number
    match get_case_summary_data b args.case_number with
    | (none, t) => some (ToolOut.text ("Case " ++ key ++ " not found."), t)
    | (some d, t) =>
      let eligible := d.technical_summary.closure_readiness = "ready"
      let reason :=
        if d.technical_summary.closure_readiness = "ready" then
          "Resolved technical issue with documented fix and completed validation."
        else if d.technical_summary.closure_readiness = "pending_validation" then
          "Fix is implemented but validation is not yet complete."
        else "Case is still in progress."
      some (ToolOut.formatted [d.case_info.caseNumber,
        if eligible then "Yes" else "No", reason], t)
  else if name = "get_related_cases" then
    let key := pyFormat args.case_number
    match get_case b args.case_number with
    | (none, t) => some (ToolOut.text ("Case " ++ key ++ " not found."), t)
    | (some c, t) =>
      let (related, t2) := get_related_cases b c.id c.subject
      if related = [] then
        some (ToolOut.text ("No related cases found for " ++ key ++ "."), t ++ t2)
      else
        some (ToolOut.formatted (("Cases related to " ++ key ++ ":") ::
          related.map CaseRec.caseNumber), t ++ t2)
  else if name = "get_case_articles" then
    let key := pyFormat args.case_number
    match get_case b args.case_number with
    | (none, t) => some (ToolOut.text ("Case " ++ key ++ " not found."), t)
    | (some c, t) =>
      let (articles, t2) := get_case_articles b c.id
      if articles = [] then
        some (ToolOut.text ("No knowledge articles linked to case " ++ key ++ "."), t ++ t2)
      else
        some (ToolOut.formatted (("Knowledge Articles for " ++ key ++ ":") ::
          articles.map ArticleRec.title), t ++ t2)
  else if name = "analyze_case" then
    let key := pyFormat args.case_number
    let depth := args.depth.getD "full"
    match get_comprehensive_case_data b args.case_number depth with
    | (none, t) => some (ToolOut.text ("Case " ++ key ++ " not found."), t)
    | (some d, t) =>
      some (ToolOut.formatted ([d.case_info.caseNumber, d.case_info.subject,
        d.case_info.status, d.technical_summary.closure_readiness] ++
        (d.risk_factors.getD [])), t)
  else if name = "follow_up_case" then
    let key := pyFormat args.case_number
    match get_comprehensive_case_data b args.case_number "full" with
    | (none, t) => some (ToolOut.text ("Case " ++ key ++ " not found."), t)
    | (some d, t) =>
      some (ToolOut.formatted [d.case_info.caseNumber,
        args.customer_question.getD "",
        d.technical_summary.closure_readiness], t)
  else if name = "triage_new_case" then
    let key := pyFormat args.case_number
    match get_comprehensive_case_data b args.case_number "full" with
    | (none, t) => some (ToolOut.text ("Case " ++ key ++ " not found."), t)
    | (some d, t) =>
      some (ToolOut.formatted ([d.case_info.caseNumber, d.case_info.priority] ++
        d.related_cases.map CaseRec.caseNumber ++
        d.knowledge_articles.map ArticleRec.title), t)
  else if name = "describe_sobject" then
    if pyFalsy args.object_name then
      some (ToolOut.text "Error: object_name is required.", [])
    else
      let key := args.object_name.getD ""
      match b.describeResult key with
      | Except.error e =>
        some (ToolOut.text ("Error describing " ++ key ++ ": " ++ e),
          [Call.describeCall key])
      | Except.ok _ =>
        some (ToolOut.formatted [key], [Call.describeCall key])
  else if name = "describe_workflow_objects" then
    some (ToolOut.formatted ["Case", "CaseComment", "EmailMessage", "Knowledge__kav"],
      [Call.describeCall "Case", Call.describeCall "CaseComment",
       Call.describeCall "EmailMessage", Call.describeCall "Knowledge__kav"])
  else if name = "get_case_emails" then
    let key := pyFormat args.case_number
    match get_case b args.case_number with
    | (none, t) => some (ToolOut.text ("Case " ++ key ++ " not found."), t)
    | (some c, t) =>
      let (emails, t2) := get_case_emails b c.id
      if emails = [] then
        some (ToolOut.text ("No emails found for case " ++ key ++ "."), t ++ t2)
      else
        some (ToolOut.formatted (("Total: " ++ toString emails.length ++ " emails") ::
          emails.map EmailRec.subject), t ++ t2)
  else if name = "draft_case_email" then
    if pyFalsy args.message then
      some (ToolOut.text "Error: message is required.", [])
    else
      let (result, t) := draft_case_email b args.case_number (args.message.getD "")
      if result.success = false then
        some (ToolOut.text ("Error: " ++ result.error.getD ""), t)
      else
        some (ToolOut.formatted [result.to_name.getD "", result.to_email.getD "",
          result.subject.getD "", result.body.getD ""], t)
  else if name = "send_case_email" then
    if pyFalsy args.subject ∨ pyFalsy args.body then
      some (ToolOut.text "Error: subject and body are required.", [])
    else
      let (result, t) := send_case_email b args.case_number
        (args.subject.getD "") (args.body.getD "")
      if result.success = false then
        some (ToolOut.text ("Error sending email: " ++ result.error.getD ""), t)
      else
        some (ToolOut.formatted [result.case_number.getD "",
          result.sent_to.getD "", result.subject.getD ""], t)
  else if name = "update_case" then
    if args.fields = none ∨ args.fields = some [] then
      some (ToolOut.text "Error: fields must be a dictionary of field names and values.", [])
    else
      let (result, t) := update_case b args.case_number (args.fields.getD [])
      if result.success = false then
        some (ToolOut.text ("Error updating case: " ++ result.error.getD ""), t)
      else
        some (ToolOut.formatted (result.case_number.getD "" ::
          result.new_values.map Prod.fst), t)
  else if name = "add_case_comment" then
    if pyFalsy args.comment then
      some (ToolOut.text "Error: comment is required.", [])
    else
      let (result, t) := add_case_comment b args.case_number
        (args.comment.getD "") (args.is_public.getD false)
      if result.success = false then
        some (ToolOut.text ("Error adding comment: " ++ result.error.getD ""), t)
      else
        some (ToolOut.formatted [result.case_number.getD "",
          result.comment_id.getD ""], t)
  else if name = "create_knowledge_article" then
    if pyFalsy args.title ∨ pyFalsy args.summary ∨ pyFalsy args.content then
      some (ToolOut.text "Error: title, summary, and content are required.", [])
    else
      let (result, t) := create_knowledge_article b (args.title.getD "")
        (args.summary.getD "") (args.content.getD "") none args.case_number
      if result.success = false then
        some (ToolOut.text ("Error creating article: " ++ result.error.getD ""), t)
      else
        some (ToolOut.formatted [result.title.getD "", result.article_id.getD "",
          result.url_name.getD ""], t)
  else none

/-! ## The `handle_request` intent router

`server.py` lines 870–986.  The handler lowercases the request, resolves the
case number (context value if truthy, otherwise the first eight-digit run in
the request), classifies the intent by substring membership in fixed keyword
lists tested in a fixed order, and either re-enters `call_tool` with the
routed tool and arguments (`RouteResult.forwarded`) or answers directly with
a text page (`RouteResult.page`). -/

/-- The intents of the classifier, in declaration order. -/
inductive Intent where
  | status_check
  | follow_up
  | search
  | closure_check
  | triage
  | kba_check
  | analyze
  | general
  deriving DecidableEq, Repr

/-- How the detected intent is rendered in the response header. -/
def intentName : Intent → String
  | Intent.status_check => "status_check"
  | Intent.follow_up => "follow_up"
  | Intent.search => "search"
  | Intent.closure_check => "closure_check"
  | Intent.triage => "triage"
  | Intent.kba_check => "kba_check"
  | Intent.analyze => "analyze"
  | Intent.general => "general"

/-- Keywords of the `status_check` test. -/
def statusWords : List String :=
  ["status", "update", "progress", "what" ++ sqS ++ "s happening"]

/-- Keywords of the `follow_up` test. -/
def followUpWords : List String :=
  ["customer asking", "follow up", "follow-up", "what has been done",
   "what" ++ sqS ++ "s been done"]

/-- Keywords of the `search` test. -/
def searchWords : List String :=
  ["find", "search", "look for", "cases about"]

/-- Keywords of the `closure_check` test. -/
def closureWords : List String :=
  ["ready to close", "can we close", "closure"]

/-- Keywords of the `triage` test. -/
def triageWords : List String :=
  ["triage", "new case", "prioritize"]

/-- Keywords of the `kba_check` test. -/
def kbaWords : List String :=
  ["kba", "knowledge article", "document"]

/-- Keywords of the `analyze` test. -/
def analyzeWords : List String :=
  ["analyze", "analysis", "details", "tell me about"]

/-- Python's `any(word in request for word in words)`. -/
def matchesAny (request : String) (words : List String) : Bool :=
  words.any (fun w => strContains request w)

/-- The `if/elif` intent classification over the lowercased request,
first matching keyword list winning, `general` when none matches. -/
def classifyIntent (request : String) : Intent :=
  if matchesAny request statusWords then Intent.status_check
  else if matchesAny request followUpWords then Intent.follow_up
  else if matchesAny request searchWords then Intent.search
  else if matchesAny request closureWords then Intent.closure_check
  else if matchesAny request triageWords then Intent.triage
  else if matchesAny request kbaWords then Intent.kba_check
  else if matchesAny request analyzeWords then Intent.analyze
  else Intent.general

/-- The ordered (keywords, intent) priority list, as the specification
describes the classifier. -/
def keywordPriority : List (List String × Intent) :=
  [(statusWords, Intent.status_check), (followUpWords, Intent.follow_up),
   (searchWords, Intent.search), (closureWords, Intent.closure_check),
   (triageWords, Intent.triage), (kbaWords, Intent.kba_check),
   (analyzeWords, Intent.analyze)]

/-- Modelled from the spec: classify by walking the ordered priority list
and taking the first entry whose keyword set matches, defaulting to
`general`.  Compared with `classifyIntent`, which is translated from the
`if/elif` chain of the source. -/
def classifySpec (request : String) : Intent :=
  (keywordPriority.find? (fun p => matchesAny request p.1)).elim
    Intent.general Prod.snd

/-- The first position (if any) where eight consecutive decimal digits
start, returning those eight characters.  This is the captured group of
`re.search(r'(?:case\s+)?(\d{8})', request)`: the optional `case\s+` prefix
never changes which digits are captured, because any run the prefixed
alternative can capture is itself a match position of the bare alternative,
and no digit can occur strictly between the two alternatives' start
positions. -/
def extract8Chars : List Char → Option (List Char)
  | [] => none
  | c :: rest =>
    let first8 := (c :: rest).take 8
    if first8.length = 8 ∧ first8.all Char.isDigit then some first8
    else extract8Chars rest

/-- String form of `extract8Chars`. -/
def extract8 (request : String) : Option String :=
  (extract8Chars request.data).map String.mk

/-- Case-number resolution of `handle_request`: a falsy context value (absent
or empty) triggers extraction from the lowercased request; extraction
failure leaves the context value as it was. -/
def resolveCaseNumber (ctxCase : Option String) (request : String) :
    Option String :=
  if pyFalsy ctxCase then
    match extract8 request with
    | some n => some n
    | none => ctxCase
  else ctxCase

/-- The outcome of `handle_request`: either a re-entrant `call_tool`
invocation with the routed tool name and arguments, or a direct text
page. -/
inductive RouteResult where
  | forwarded (tool : String) (args : ToolArgs)
  | page (lines : List String)
  deriving DecidableEq, Repr

/-- A line of fifty equals signs. -/
def eqBar : String := String.mk (List.replicate 50 '=')

/-- The response header lines built before routing: banner, echoed raw
request, detected case number, detected intent. -/
def requestHeader (rawRequest : Option String) (case_number : Option String)
    (intent : Intent) : List String :=
  [eqBar, "INTELLIGENT REQUEST HANDLER", eqBar, "",
   "Request: " ++ rawRequest.getD "",
   "Detected Case: " ++ pyOrNone case_number, "",
   "🎯 Detected Intent: " ++ intentName intent, ""]

/-- The static help block of the `general` intent. -/
def generalHelpLines : List String :=
  ["🤔 I couldn" ++ sqS ++ "t determine a specific intent.", "",
   "Available actions:",
   "  • " ++ sqS ++ "status of case XXXXXXXX" ++ sqS ++ " - Get case status",
   "  • " ++ sqS ++ "customer asking about case XXXXXXXX" ++ sqS ++ " - Generate follow-up response",
   "  • " ++ sqS ++ "find cases about [topic]" ++ sqS ++ " - Search for cases",
   "  • " ++ sqS ++ "ready to close case XXXXXXXX?" ++ sqS ++ " - Check closure readiness",
   "  • " ++ sqS ++ "triage case XXXXXXXX" ++ sqS ++ " - Triage a new case",
   "  • " ++ sqS ++ "create KBA for case XXXXXXXX" ++ sqS ++ " - Check KBA eligibility"]

/-- The warning line asked for when a case-number intent has no case
number. -/
def needCaseLine (what : String) : String :=
  "⚠️ Please specify a case number for " ++ what ++ "."

/-- The search-term stripping of the `search` intent. -/
def searchTerms (request : String) : String :=
  pyStrip (pyReplace (pyReplace (pyReplace (pyReplace request "find" "")
    "search" "") "cases about" "") "look for" "")

/-- `handle_request`: lowercase the request, resolve the case number,
classify, and route.  Routed tools receive the resolved case number; the
`search` route passes only the stripped query; missing case numbers and the
`general` intent answer with a page. -/
def handle_request (rawRequest : Option String) (ctxCase : Option String) :
    RouteResult :=
  let request := pyLower (rawRequest.getD "")
  let case_number := resolveCaseNumber ctxCase request
  let intent := classifyIntent request
  let header := requestHeader rawRequest case_number intent
  match intent with
  | Intent.status_check =>
    if ¬ pyFalsy case_number then
      RouteResult.forwarded "analyze_case"
        { case_number := case_number, depth := some "full" }
    else RouteResult.page (header ++ [needCaseLine "status check"])
  | Intent.analyze =>
    if ¬ pyFalsy case_number then
      RouteResult.forwarded "analyze_case"
        { case_number := case_number, depth := some "full" }
    else RouteResult.page (header ++ [needCaseLine "status check"])
  | Intent.follow_up =>
    if ¬ pyFalsy case_number then
      RouteResult.forwarded "follow_up_case"
        { case_number := case_number, customer_question := some request }
    else RouteResult.page (header ++ [needCaseLine "follow-up"])
  | Intent.search =>
    RouteResult.forwarded "search_cases"
      { query_string := some (searchTerms request) }
  | Intent.closure_check =>
    if ¬ pyFalsy case_number then
      RouteResult.forwarded "get_case_summary" { case_number := case_number }
    else RouteResult.page (header ++ [needCaseLine "closure check"])
  | Intent.triage =>
    if ¬ pyFalsy case_number then
      RouteResult.forwarded "triage_new_case" { case_number := case_number }
    else RouteResult.page (header ++ [needCaseLine "triage"])
  | Intent.kba_check =>
    if ¬ pyFalsy case_number then
      RouteResult.forwarded "suggest_knowledge_article" { case_number := case_number }
    else RouteResult.page (header ++ [needCaseLine "KBA check"])
  | Intent.general =>
    RouteResult.page (header ++ generalHelpLines)

end SF

namespace Conn

/-! ## Exception flow around connection establishment

Every adapter method begins with `self.connect()` and only then opens its
`try` block.  `connect` raises `ValueError` when credentials are missing and
whatever `Salesforce(...)` raises on a failed login; neither is caught by
the method.  This namespace models that flow with `Except`: an `Except.error`
reaching the caller is a propagated exception. -/

/-- The operations available on an established connection; each can raise. -/
structure SfHandle where
  queryCase : String → Except String (Option SF.CaseRec)
  queryComments : String → Except String (List SF.CommentRec)
  caseUpdate : String → List (String × String) → Except String Unit

/-- The environment of an adapter call: the outcome of `self.connect()`. -/
structure Env where
  connectResult : Except String SfHandle

/-- `connect`: missing credentials or a failed login raise; otherwise the
handle is available (and cached, so later `connect` calls are no-ops). -/
def connect (env : Env) : Except String SfHandle :=
  env.connectResult

/-- The `try` body of `get_case` once connected: a raised query error is
caught and converted to `None`. -/
def get_case_connected (sf : SfHandle) (case_number : String) :
    Option SF.CaseRec :=
  match sf.queryCase case_number with
  | Except.error _ => none
  | Except.ok r => r

/-- `get_case` with its leading `connect`: the connect error is raised
before the `try` block and propagates. -/
def get_case (env : Env) (case_number : String) :
    Except String (Option SF.CaseRec) :=
  match connect env with
  | Except.error e => Except.error e
  | Except.ok sf => Except.ok (get_case_connected sf case_number)

/-- `get_case_comments` with its leading `connect`; a query error inside the
`try` is caught and converted to the empty list. -/
def get_case_comments (env : Env) (case_id : String) :
    Except String (List SF.CommentRec) :=
  match connect env with
  | Except.error e => Except.error e
  | Except.ok sf =>
    Except.ok (match sf.queryComments case_id with
      | Except.error _ => []
      | Except.ok l => l)

/-- The `try` body of `update_case` once connected: not-found short-circuits,
a raised update error is caught and becomes a `success: false` result. -/
def update_case_connected (sf : SfHandle) (case_number : String)
    (fields : List (String × String)) : SF.OpResult :=
  match get_case_connected sf case_number with
  | none =>
    { success := false, error := some ("Case " ++ case_number ++ " not found") }
  | some c =>
    match sf.caseUpdate c.id fields with
    | Except.error e => { success := false, error := some e }
    | Except.ok _ =>
      { success := true, case_number := some case_number, case_id := some c.id,
        updated_fields := fields.map Prod.fst, new_values := fields }

/-- `update_case` with its leading `connect`. -/
def update_case (env : Env) (case_number : String)
    (fields : List (String × String)) : Except String SF.OpResult :=
  match connect env with
  | Except.error e => Except.error e
  | Except.ok sf => Except.ok (update_case_connected sf case_number fields)

end Conn

/-! ## Concrete fixtures for witnesses and counterexamples -/

/-- A concrete case record. -/
def caseA : SF.CaseRec :=
  { id := "500XX0000001", caseNumber := "00335943",
    subject := "Runtime behavior during application execution",
    description := some "Customer follow-up on runtime behavior",
    status := "Monitoring", priority := "High",
    contactEmail := some "dev@example.com",
    fix_status := some "Implemented", validation_status := some "Testing completed" }

/-- A backend on which every case lookup misses, every list read is empty,
and every write succeeds. -/
def emptyBackend : SF.Backend :=
  { cases := fun _ => none, comments := fun _ => [], history := fun _ => [],
    feed := fun _ => [], relatedCases := fun _ _ => [], articles := fun _ => [],
    emails := fun _ => [], sosl := fun _ => [], soqlCases := fun _ => [],
    daysSince := fun _ => none,
    caseUpdateResult := fun _ _ => Except.ok (),
    commentCreateResult := Except.ok "comment-1",
    kavCreateResult := Except.ok "ka-1",
    kaCreateResult := Except.ok "ka-1",
    caseArticleLinkResult := Except.ok (),
    emailSendResult := Except.ok (),
    emailMessageCreateResult := Except.ok "em-1",
    describeResult := fun _ => Except.ok () }

/-- A backend whose SOSL search finds `caseA`. -/
def soslHitBackend : SF.Backend :=
  { emptyBackend with sosl := fun _ => [caseA] }

/-- A backend on which the article is created but the case lookup misses and
the case-article link creation fails. -/
def linkFailBackend : SF.Backend :=
  { emptyBackend with
    caseArticleLinkResult := Except.error "link failed",
    kavCreateResult := Except.ok "ka-9" }

/-- An environment whose connection establishment fails (missing
credentials or a rejected login). -/
def badEnv : Conn.Env :=
  { connectResult := Except.error "INVALID_LOGIN: authentication failure" }

/-- A connected handle on which the case query raises. -/
def raisingHandle : Conn.SfHandle :=
  { queryCase := fun _ => Except.error "MALFORMED_QUERY",
    queryComments := fun _ => Except.error "MALFORMED_QUERY",
    caseUpdate := fun _ _ => Except.error "FIELD_INTEGRITY_EXCEPTION" }

/-- An environment whose connection succeeds and whose queries raise. -/
def raisingEnv : Conn.Env :=
  { connectResult := Except.ok raisingHandle }

/-- A backend holding exactly `caseA` under its case number. -/
def foundBackend : SF.Backend :=
  { emptyBackend with
    cases := fun n => if n = "00335943" then some caseA else none }

/-- A connected handle on which the case query finds `caseA` and the update
call raises. -/
def updFailHandle : Conn.SfHandle :=
  { queryCase := fun _ => Except.ok (some caseA),
    queryComments := fun _ => Except.ok [],
    caseUpdate := fun _ _ => Except.error "FIELD_INTEGRITY_EXCEPTION" }

/-- An environment whose connection succeeds, whose case query hits and
whose update raises. -/
def updFailEnv : Conn.Env :=
  { connectResult := Except.ok updFailHandle }

/-! ## Helper lemmas -/

/-- Escaping characters free of reserved characters is the identity. -/
theorem escapeSoslChars_of_clean (l : List Char)
    (h : ∀ c ∈ l, c ∉ SF.reserved_sosl) : SF.escapeSoslChars l = l := by
  induction l with
  | nil => rfl
  | cons c rest ih =>
    have hc : c ∉ SF.reserved_sosl := h c (List.mem_cons_self c rest)
    simp only [SF.escapeSoslChars, if_neg hc]
    exact congrArg (c :: ·) (ih fun d hd => h d (List.mem_cons_of_mem c hd))

/-- Replacing a character absent from the list is the identity. -/
theorem replaceChar_of_clean (t : Char) (repl l : List Char)
    (h : ∀ c ∈ l, c ≠ t) : SF.replaceChar t repl l = l := by
  induction l with
  | nil => rfl
  | cons c rest ih =>
    have hc : c ≠ t := h c (List.mem_cons_self c rest)
    simp only [SF.replaceChar, if_neg hc]
    exact congrArg (c :: ·) (ih fun d hd => h d (List.mem_cons_of_mem c hd))

/-- Unescaping inverts SOSL escaping on every character list. -/
theorem soslUnescape_escapeSoslChars (l : List Char) :
    SF.soslUnescape (SF.escapeSoslChars l) = l := by
  induction l with
  | nil => rfl
  | cons c rest ih =>
    by_cases hc : c ∈ SF.reserved_sosl
    · simp [SF.escapeSoslChars, hc, SF.soslUnescape, ih]
    · have hbs : c ≠ '\\' := by
        intro e
        exact hc (e ▸ by decide)
      rw [SF.escapeSoslChars, if_neg hc, SF.soslUnescape.eq_def]
      simp [hbs, ih]

/-- A witnessed literal decomposition makes the substring search succeed. -/
theorem strContains_of_decomp (q lit : String)
    (h : ∃ p s, q.data = p ++ (lit.data ++ s)) :
    strContains q lit = true := by
  obtain ⟨p, s, hq⟩ := h
  unfold strContains
  rw [List.any_eq_true]
  refine ⟨p.length, List.mem_range.mpr ?_, ?_⟩
  · have : q.data.length = p.length + (lit.data ++ s).length := by
      rw [hq, List.length_append]
    omega
  · rw [hq, List.drop_left, List.isPrefixOf_iff_prefix]
    exact List.prefix_append lit.data s

/-! ## Claims -/

/-- C1: for every pair of status values (a missing field behaving as the
empty string), the classification computed by `get_case_summary_data` and
`get_comprehensive_case_data` is `ready` iff `fix_status = "Implemented"`
and `validation_status = "Completed"`, `pending_validation` iff
`fix_status = "Implemented"` and `validation_status ≠ "Completed"`, and
`in_progress` otherwise; both composite reads expose exactly this
classification for the fetched case. -/
theorem C1_closure_readiness_classifier (fix validation : String)
    (b : SF.Backend) (cn : Option String) (c : SF.CaseRec)
    (h : b.cases (pyFormat cn) = some c) :
    (SF.closure_readiness_summary fix validation = "ready" ↔
      (fix = "Implemented" ∧ validation = "Completed")) ∧
    (SF.closure_readiness_summary fix validation = "pending_validation" ↔
      (fix = "Implemented" ∧ validation ≠ "Completed")) ∧
    (SF.closure_readiness_summary fix validation = "in_progress" ↔
      fix ≠ "Implemented") ∧
    SF.closure_readiness_comprehensive fix validation =
      SF.closure_readiness_summary fix validation ∧
    (∃ d, (SF.get_case_summary_data b cn).1 = some d ∧
      d.technical_summary.closure_readiness =
        SF.closure_readiness_summary (c.fix_status.getD "")
          (c.validation_status.getD "")) ∧
    (∃ d, (SF.get_comprehensive_case_data b cn "full").1 = some d ∧
      d.technical_summary.closure_readiness =
        SF.closure_readiness_comprehensive (c.fix_status.getD "")
          (c.validation_status.getD "")) := by
  refine ⟨?_, ?_, ?_, rfl, ?_, ?_⟩
  · by_cases h1 : fix = "Implemented" <;> by_cases h2 : validation = "Completed" <;>
      simp [SF.closure_readiness_summary, h1, h2]
  · by_cases h1 : fix = "Implemented" <;> by_cases h2 : validation = "Completed" <;>
      simp [SF.closure_readiness_summary, h1, h2]
  · by_cases h1 : fix = "Implemented" <;> by_cases h2 : validation = "Completed" <;>
      simp [SF.closure_readiness_summary, h1, h2]
  · simp only [SF.get_case_summary_data, SF.get_case_with_status, h]
    exact ⟨_, rfl, rfl⟩
  · simp only [SF.get_comprehensive_case_data, SF.get_case_with_status, h,
      String.reduceEq, if_false]
    exact ⟨_, rfl, rfl⟩

/-- Witness for C1 at a concrete backend and status pair. -/
theorem C1_closure_readiness_classifier_witness :
    (SF.closure_readiness_summary "Implemented" "Completed" = "ready" ↔
      ("Implemented" = "Implemented" ∧ "Completed" = "Completed")) ∧
    (SF.closure_readiness_summary "Implemented" "Completed" = "pending_validation" ↔
      ("Implemented" = "Implemented" ∧ "Completed" ≠ "Completed")) ∧
    (SF.closure_readiness_summary "Implemented" "Completed" = "in_progress" ↔
      "Implemented" ≠ "Implemented") ∧
    SF.closure_readiness_comprehensive "Implemented" "Completed" =
      SF.closure_readiness_summary "Implemented" "Completed" ∧
    (∃ d, (SF.get_case_summary_data foundBackend (some "00335943")).1 = some d ∧
      d.technical_summary.closure_readiness =
        SF.closure_readiness_summary (caseA.fix_status.getD "")
          (caseA.validation_status.getD "")) ∧
    (∃ d, (SF.get_comprehensive_case_data foundBackend (some "00335943") "full").1 = some d ∧
      d.technical_summary.closure_readiness =
        SF.closure_readiness_comprehensive (caseA.fix_status.getD "")
          (caseA.validation_status.getD "")) :=
  C1_closure_readiness_classifier "Implemented" "Completed" foundBackend
    (some "00335943") caseA (by decide)

/-- C5: escaping a string free of the respective reserved characters is a
no-op for both `_escape_sosl` and `_escape_soql`, and SOSL escaping
round-trips through the consumer's unescaping; but for `_escape_soql` the
round-trip fails on a single quote: the two `replace` calls run in the wrong
order, so `'` becomes `\\'` (an escaped backslash followed by a bare quote)
and the matched literal of the embedded result is `\`, not `'`. -/
theorem C5_escaping_roundtrip (s t : String)
    (hs : ∀ c ∈ s.data, c ∉ SF.reserved_sosl)
    (ht : ∀ c ∈ t.data, c ≠ '\'' ∧ c ≠ '\\') :
    SF._escape_sosl s = s ∧
    SF._escape_soql t = t ∧
    (∀ u : String, SF.soslUnescape (SF._escape_sosl u).data = u.data) ∧
    SF._escape_soql sqS = bsS ++ bsS ++ sqS ∧
    SF.soqlLiteral ((SF._escape_soql sqS).data ++ ['\'']) = ['\\'] ∧
    SF.soqlLiteral ((SF._escape_soql sqS).data ++ ['\'']) ≠ sqS.data := by
  refine ⟨?_, ?_, ?_, by decide, by decide, by decide⟩
  · exact String.ext (escapeSoslChars_of_clean s.data hs)
  · refine String.ext ?_
    show SF.replaceChar '\\' ['\\', '\\'] (SF.replaceChar '\'' ['\\', '\''] t.data) = t.data
    rw [replaceChar_of_clean '\'' ['\\', '\''] t.data (fun c hc => (ht c hc).1),
      replaceChar_of_clean '\\' ['\\', '\\'] t.data (fun c hc => (ht c hc).2)]
  · intro u
    exact soslUnescape_escapeSoslChars u.data

/-- Witness for C5 at concrete clean inputs. -/
theorem C5_escaping_roundtrip_witness :
    SF._escape_sosl "hello world" = "hello world" ∧
    SF._escape_soql "hello world" = "hello world" ∧
    SF.soslUnescape (SF._escape_sosl "a+b(c)").data = ("a+b(c)" : String).data ∧
    SF._escape_soql sqS = bsS ++ bsS ++ sqS ∧
    SF.soqlLiteral ((SF._escape_soql sqS).data ++ ['\'']) = ['\\'] ∧
    SF.soqlLiteral ((SF._escape_soql sqS).data ++ ['\'']) ≠ sqS.data := by
  have h := C5_escaping_roundtrip "hello world" "hello world"
    (by decide) (by decide)
  exact ⟨h.1, h.2.1, h.2.2.1 "a+b(c)", h.2.2.2.1, h.2.2.2.2.1, h.2.2.2.2.2⟩

/-- C3 counterexample: a failure of connection establishment (raised by
`connect`, which every adapter method calls before opening its `try` block)
propagates out of `get_case` and `update_case` to their callers instead of
being converted to a sentinel or error result. -/
theorem C3_connect_error_propagates :
    Conn.get_case badEnv "00335943" =
      Except.error "INVALID_LOGIN: authentication failure" ∧
    Conn.update_case badEnv "00335943" [("Status", "Closed")] =
      Except.error "INVALID_LOGIN: authentication failure" ∧
    Conn.get_case_comments badEnv "500XX0000001" =
      Except.error "INVALID_LOGIN: authentication failure" :=
  ⟨rfl, rfl, rfl⟩

/-- C3 amended: once the connection step has succeeded, every upstream
failure raised inside an adapter method is caught there and converted — a
read error to the `None`/empty sentinel, a write error to a
`success: false` result; only connection establishment failures escape. -/
theorem C3_post_connection_errors_caught (env : Conn.Env)
    (sf : Conn.SfHandle) (cn cid : String)
    (fields : List (String × String))
    (h : env.connectResult = Except.ok sf) :
    (∃ r, Conn.get_case env cn = Except.ok r) ∧
    (∀ e, sf.queryCase cn = Except.error e →
      Conn.get_case env cn = Except.ok none) ∧
    (∃ l, Conn.get_case_comments env cid = Except.ok l) ∧
    (∀ e, sf.queryComments cid = Except.error e →
      Conn.get_case_comments env cid = Except.ok []) ∧
    (∃ r, Conn.update_case env cn fields = Except.ok r) ∧
    (∀ c e, sf.queryCase cn = Except.ok (some c) →
      sf.caseUpdate c.id fields = Except.error e →
      Conn.update_case env cn fields =
        Except.ok { success := false, error := some e }) := by
  refine ⟨⟨Conn.get_case_connected sf cn, ?_⟩, fun e he => ?_,
    ⟨(match sf.queryComments cid with
      | Except.error _ => []
      | Except.ok l => l), ?_⟩,
    fun e he => ?_, ⟨Conn.update_case_connected sf cn fields, ?_⟩,
    fun c e hc hu => ?_⟩ <;>
    simp [Conn.get_case, Conn.get_case_comments, Conn.update_case,
      Conn.connect, Conn.get_case_connected, Conn.update_case_connected,
      h, *]

/-- Witness for C3's amended theorem on concrete raising environments. -/
theorem C3_post_connection_errors_caught_witness :
    Conn.get_case raisingEnv "00335943" = Except.ok none ∧
    Conn.get_case_comments raisingEnv "500XX0000001" = Except.ok [] ∧
    Conn.update_case updFailEnv "00335943" [("Status", "Closed")] =
      Except.ok { success := false, error := some "FIELD_INTEGRITY_EXCEPTION" } :=
  ⟨(C3_post_connection_errors_caught raisingEnv raisingHandle "00335943"
      "500XX0000001" [("Status", "Closed")] rfl).2.1 "MALFORMED_QUERY" rfl,
   (C3_post_connection_errors_caught raisingEnv raisingHandle "00335943"
      "500XX0000001" [("Status", "Closed")] rfl).2.2.2.1 "MALFORMED_QUERY" rfl,
   (C3_post_connection_errors_caught updFailEnv updFailHandle "00335943"
      "500XX0000001" [("Status", "Closed")] rfl).2.2.2.2.2 caseA
      "FIELD_INTEGRITY_EXCEPTION" rfl rfl⟩

/-- C2: for every search query, `search_cases` invokes the fuzzy
partial-match search exactly once iff the SOSL full-text search returned the
empty list, and whenever the SOSL search returns at least one record those
records are returned unchanged and the fuzzy search is never invoked. -/
theorem C2_two_tier_search (b : SF.Backend) (q : String) :
    ((SF.search_cases b (some q)).2.count (SF.Call.fuzzySearch q) =
      if b.sosl (SF.soslQuery (SF._escape_sosl q)) = [] then 1 else 0) ∧
    (b.sosl (SF.soslQuery (SF._escape_sosl q)) ≠ [] →
      (SF.search_cases b (some q)).1 =
        b.sosl (SF.soslQuery (SF._escape_sosl q))) := by
  unfold SF.search_cases SF._search_cases_sosl SF._search_cases_fuzzy
  by_cases hres : b.sosl (SF.soslQuery (SF._escape_sosl q)) = []
  · by_cases hterms : SF.fuzzyTerms q = [] <;>
      simp [pyFormat, hres, hterms, List.count_cons]
  · simp [pyFormat, hres, List.count_cons]

/-- Witness for C2 on concrete backends: one where the SOSL search misses
(the fuzzy search runs once) and one where it hits (its records are
returned and the fuzzy search never runs). -/
theorem C2_two_tier_search_witness :
    ((SF.search_cases emptyBackend (some "crash")).2.count
        (SF.Call.fuzzySearch "crash") =
      if emptyBackend.sosl (SF.soslQuery (SF._escape_sosl "crash")) = []
      then 1 else 0) ∧
    (SF.search_cases soslHitBackend (some "crash")).1 =
      soslHitBackend.sosl (SF.soslQuery (SF._escape_sosl "crash")) :=
  ⟨(C2_two_tier_search emptyBackend "crash").1,
   (C2_two_tier_search soslHitBackend "crash").2 (by decide)⟩

/-- C4: when the CRM holds no case for the given number, every
case-dependent tool answers with its deterministic not-found text (which
mentions the case number) after issuing exactly the one initial case
lookup, and performs no further upstream calls. -/
theorem C4_not_found_short_circuit (b : SF.Backend) (n : String)
    (fs : List (String × String)) (cmt msg subj bdy : String)
    (hn : b.cases n = none) (hfs : fs ≠ []) (hcmt : cmt ≠ "")
    (hmsg : msg ≠ "") (hsubj : subj ≠ "") (hbdy : bdy ≠ "") :
    SF.callTool b "fetch" { id := some n } =
      some (SF.ToolOut.text ("Case " ++ n ++ " not found."),
        [SF.Call.queryCase n]) ∧
    SF.callTool b "get_case_details" { case_number := some n } =
      some (SF.ToolOut.text ("Case " ++ n ++ " not found."),
        [SF.Call.queryCase n]) ∧
    SF.callTool b "get_case_history" { case_number := some n } =
      some (SF.ToolOut.text ("Case " ++ n ++ " not found."),
        [SF.Call.queryCase n]) ∧
    SF.callTool b "get_case_timeline" { case_number := some n } =
      some (SF.ToolOut.text ("Case " ++ n ++ " not found."),
        [SF.Call.queryCase n]) ∧
    SF.callTool b "get_related_cases" { case_number := some n } =
      some (SF.ToolOut.text ("Case " ++ n ++ " not found."),
        [SF.Call.queryCase n]) ∧
    SF.callTool b "get_case_articles" { case_number := some n } =
      some (SF.ToolOut.text ("Case " ++ n ++ " not found."),
        [SF.Call.queryCase n]) ∧
    SF.callTool b "get_case_summary" { case_number := some n } =
      some (SF.ToolOut.text ("Case " ++ n ++ " not found."),
        [SF.Call.queryCaseStatus n]) ∧
    SF.callTool b "suggest_knowledge_article" { case_number := some n } =
      some (SF.ToolOut.text ("Case " ++ n ++ " not found."),
        [SF.Call.queryCaseStatus n]) ∧
    SF.callTool b "analyze_case" { case_number := some n } =
      some (SF.ToolOut.text ("Case " ++ n ++ " not found."),
        [SF.Call.queryCaseStatus n]) ∧
    SF.callTool b "follow_up_case"
        { case_number := some n, customer_question := some cmt } =
      some (SF.ToolOut.text ("Case " ++ n ++ " not found."),
        [SF.Call.queryCaseStatus n]) ∧
    SF.callTool b "triage_new_case" { case_number := some n } =
      some (SF.ToolOut.text ("Case " ++ n ++ " not found."),
        [SF.Call.queryCaseStatus n]) ∧
    SF.callTool b "get_case_emails" { case_number := some n } =
      some (SF.ToolOut.text ("Case " ++ n ++ " not found."),
        [SF.Call.queryCase n]) ∧
    SF.callTool b "update_case" { case_number := some n, fields := some fs } =
      some (SF.ToolOut.text ("Error updating case: " ++
        ("Case " ++ n ++ " not found")), [SF.Call.queryCase n]) ∧
    SF.callTool b "add_case_comment"
        { case_number := some n, comment := some cmt } =
      some (SF.ToolOut.text ("Error adding comment: " ++
        ("Case " ++ n ++ " not found")), [SF.Call.queryCase n]) ∧
    SF.callTool b "draft_case_email"
        { case_number := some n, message := some msg } =
      some (SF.ToolOut.text ("Error: " ++ ("Case " ++ n ++ " not found")),
        [SF.Call.queryCaseContact n]) ∧
    SF.callTool b "send_case_email"
        { case_number := some n, subject := some subj, body := some bdy } =
      some (SF.ToolOut.text ("Error sending email: " ++
        ("Case " ++ n ++ " not found")), [SF.Call.queryCaseContact n]) ∧
    (∃ pre suf, ("Case " ++ n ++ " not found.") = pre ++ n ++ suf) := by
  refine ⟨?_, ?_, ?_, ?_, ?_, ?_, ?_, ?_, ?_, ?_, ?_, ?_, ?_, ?_, ?_, ?_,
    ⟨"Case ", " not found.", rfl⟩⟩ <;>
    simp [SF.callTool, SF.get_case, SF.get_case_with_status,
      SF.get_case_summary_data, SF.get_comprehensive_case_data,
      SF.update_case, SF.add_case_comment, SF.draft_case_email,
      SF.send_case_email, pyFormat, pyFalsy, hn, hfs, hcmt, hmsg, hsubj, hbdy]

/-- Witness for C4 on the backend holding no cases at all. -/
theorem C4_not_found_short_circuit_witness :
    SF.callTool emptyBackend "fetch" { id := some "00000001" } =
      some (SF.ToolOut.text ("Case " ++ "00000001" ++ " not found."),
        [SF.Call.queryCase "00000001"]) ∧
    SF.callTool emptyBackend "update_case"
        { case_number := some "00000001", fields := some [("Status", "Closed")] } =
      some (SF.ToolOut.text ("Error updating case: " ++
        ("Case " ++ "00000001" ++ " not found")),
        [SF.Call.queryCase "00000001"]) ∧
    SF.callTool emptyBackend "send_case_email"
        { case_number := some "00000001", subject := some "Re",
          body := some "Hello" } =
      some (SF.ToolOut.text ("Error sending email: " ++
        ("Case " ++ "00000001" ++ " not found")),
        [SF.Call.queryCaseContact "00000001"]) := by
  have h := C4_not_found_short_circuit emptyBackend "00000001"
    [("Status", "Closed")] "note" "Hi" "Re" "Hello" (by decide) (by decide)
    (by decide) (by decide) (by decide) (by decide)
  exact ⟨h.1, h.2.2.2.2.2.2.2.2.2.2.2.2.1, h.2.2.2.2.2.2.2.2.2.2.2.2.2.2.2.1⟩

/-- C6: the intent classifier tests the fixed keyword sets in the fixed
order status/follow-up/search/closure/triage/KBA/analyze with the first
match winning (it coincides with the ordered-priority-list reading of the
spec), a request matching no set is classified `general`, and the `general`
branch of `handle_request` answers with the static help block — no scoring
is involved. -/
theorem C6_intent_first_match (request : String) (raw ctx : Option String) :
    SF.classifyIntent request = SF.classifySpec request ∧
    (SF.classifyIntent request = SF.Intent.general ↔
      (SF.matchesAny request SF.statusWords = false ∧
       SF.matchesAny request SF.followUpWords = false ∧
       SF.matchesAny request SF.searchWords = false ∧
       SF.matchesAny request SF.closureWords = false ∧
       SF.matchesAny request SF.triageWords = false ∧
       SF.matchesAny request SF.kbaWords = false ∧
       SF.matchesAny request SF.analyzeWords = false)) ∧
    (SF.classifyIntent (pyLower (raw.getD "")) = SF.Intent.general →
      SF.handle_request raw ctx = SF.RouteResult.page
        (SF.requestHeader raw
          (SF.resolveCaseNumber ctx (pyLower (raw.getD "")))
          SF.Intent.general ++ SF.generalHelpLines)) := by
  refine ⟨?_, ?_, fun hgen => ?_⟩
  · unfold SF.classifyIntent SF.classifySpec SF.keywordPriority
    cases h1 : SF.matchesAny request SF.statusWords <;>
    cases h2 : SF.matchesAny request SF.followUpWords <;>
    cases h3 : SF.matchesAny request SF.searchWords <;>
    cases h4 : SF.matchesAny request SF.closureWords <;>
    cases h5 : SF.matchesAny request SF.triageWords <;>
    cases h6 : SF.matchesAny request SF.kbaWords <;>
    cases h7 : SF.matchesAny request SF.analyzeWords <;>
      simp [List.find?, h1, h2, h3, h4, h5, h6, h7]
  · unfold SF.classifyIntent
    cases h1 : SF.matchesAny request SF.statusWords <;>
    cases h2 : SF.matchesAny request SF.followUpWords <;>
    cases h3 : SF.matchesAny request SF.searchWords <;>
    cases h4 : SF.matchesAny request SF.closureWords <;>
    cases h5 : SF.matchesAny request SF.triageWords <;>
    cases h6 : SF.matchesAny request SF.kbaWords <;>
    cases h7 : SF.matchesAny request SF.analyzeWords <;>
      simp [h1, h2, h3, h4, h5, h6, h7]
  · simp only [SF.handle_request, hgen]

/-- Witness for C6 on a request matching no keyword set. -/
theorem C6_intent_first_match_witness :
    SF.classifyIntent "zzz" = SF.classifySpec "zzz" ∧
    (SF.classifyIntent "zzz" = SF.Intent.general ↔
      (SF.matchesAny "zzz" SF.statusWords = false ∧
       SF.matchesAny "zzz" SF.followUpWords = false ∧
       SF.matchesAny "zzz" SF.searchWords = false ∧
       SF.matchesAny "zzz" SF.closureWords = false ∧
       SF.matchesAny "zzz" SF.triageWords = false ∧
       SF.matchesAny "zzz" SF.kbaWords = false ∧
       SF.matchesAny "zzz" SF.analyzeWords = false)) ∧
    SF.handle_request (some "zzz") none = SF.RouteResult.page
      (SF.requestHeader (some "zzz")
        (SF.resolveCaseNumber none (pyLower ((some "zzz").getD "")))
        SF.Intent.general ++ SF.generalHelpLines) :=
  ⟨(C6_intent_first_match "zzz" (some "zzz") none).1,
   (C6_intent_first_match "zzz" (some "zzz") none).2.1,
   (C6_intent_first_match "zzz" (some "zzz") none).2.2 (by decide)⟩

/-- Every routed tool call of `handle_request` other than the `search` route
carries exactly the resolved case number. -/
theorem handle_request_forwarded_case_number (raw ctx : Option String)
    (tool : String) (args : SF.ToolArgs)
    (hr : SF.handle_request raw ctx = SF.RouteResult.forwarded tool args)
    (hne : tool ≠ "search_cases") :
    args.case_number = SF.resolveCaseNumber ctx (pyLower (raw.getD "")) := by
  simp only [SF.handle_request] at hr
  cases hI : SF.classifyIntent (pyLower (raw.getD "")) <;> rw [hI] at hr <;>
    simp only [] at hr <;>
    first
    | (split at hr <;> simp_all <;> rw [← hr.2])
    | simp_all

/-- C7 counterexample: (a) with the empty string supplied as the context
case number, the router still extracts the eight-digit number from the
request and forwards the extracted value, not the supplied one; (b) for a
search-intent request containing an eight-digit number, the dispatched tool
call carries no case-number argument at all. -/
theorem C7_extraction_counterexample :
    SF.handle_request (some "status of case 00335943") (some "") =
      SF.RouteResult.forwarded "analyze_case"
        { case_number := some "00335943", depth := some "full" } ∧
    (some "" : Option String) ≠ some "00335943" ∧
    SF.handle_request (some "find cases about 00335943") none =
      SF.RouteResult.forwarded "search_cases"
        { query_string := some "00335943" } ∧
    ({ query_string := some "00335943" } : SF.ToolArgs).case_number = none :=
  ⟨by decide, by decide, by decide, rfl⟩

/-- C7 amended: with no (or an empty) context case number, the first
eight-digit run of the request is extracted and every dispatched tool call
that takes a case number carries it; a non-empty supplied context value is
used unchanged regardless of the request text, and no extraction occurs;
the `search` route forwards no case number and an empty supplied value is
treated as absent. -/
theorem C7_case_number_resolution (request v n : String)
    (hx : SF.extract8 (pyLower request) = some n) (hv : v ≠ "") :
    SF.resolveCaseNumber none (pyLower request) = some n ∧
    SF.resolveCaseNumber (some "") (pyLower request) = some n ∧
    (∀ tool args, SF.handle_request (some request) none =
      SF.RouteResult.forwarded tool args → tool ≠ "search_cases" →
      args.case_number = some n) ∧
    SF.resolveCaseNumber (some v) (pyLower request) = some v ∧
    (∀ tool args, SF.handle_request (some request) (some v) =
      SF.RouteResult.forwarded tool args → tool ≠ "search_cases" →
      args.case_number = some v) := by
  have h1 : SF.resolveCaseNumber none (pyLower request) = some n := by
    simp [SF.resolveCaseNumber, pyFalsy, hx]
  have h2 : SF.resolveCaseNumber (some "") (pyLower request) = some n := by
    simp [SF.resolveCaseNumber, pyFalsy, hx]
  have h3 : SF.resolveCaseNumber (some v) (pyLower request) = some v := by
    simp [SF.resolveCaseNumber, pyFalsy, hv]
  refine ⟨h1, h2, fun tool args hr hne => ?_, h3, fun tool args hr hne => ?_⟩
  · rw [handle_request_forwarded_case_number (some request) none tool args hr hne]
    simpa using h1
  · rw [handle_request_forwarded_case_number (some request) (some v) tool args hr hne]
    simpa using h3

/-- Witness for C7's amended theorem at concrete requests. -/
theorem C7_case_number_resolution_witness :
    SF.resolveCaseNumber none (pyLower "status of case 00335943") =
      some "00335943" ∧
    SF.resolveCaseNumber (some "") (pyLower "status of case 00335943") =
      some "00335943" ∧
    ({ case_number := some "00335943", depth := some "full" } :
      SF.ToolArgs).case_number = some "00335943" ∧
    SF.resolveCaseNumber (some "11112222") (pyLower "status of case 00335943") =
      some "11112222" ∧
    ({ case_number := some "11112222", depth := some "full" } :
      SF.ToolArgs).case_number = some "11112222" := by
  have h := C7_case_number_resolution "status of case 00335943" "11112222"
    "00335943" (by decide) (by decide)
  exact ⟨h.1, h.2.1,
    h.2.2.1 "analyze_case" { case_number := some "00335943", depth := some "full" }
      (by decide) (by decide),
    h.2.2.2.1,
    h.2.2.2.2 "analyze_case" { case_number := some "11112222", depth := some "full" }
      (by decide) (by decide)⟩

/-- C8 counterexample: `fetch` declares `id` as required, yet invoking it
with `id` absent produces no usage-error — the dispatcher passes the `None`
through to the adapter, which issues the CRM case query (interpolating the
text `"None"`) and the handler answers with a not-found text. -/
theorem C8_missing_required_arg_reaches_crm :
    "id" ∈ SF.requiredArgs "fetch" ∧
    ({} : SF.ToolArgs).id = none ∧
    SF.callTool emptyBackend "fetch" {} =
      some (SF.ToolOut.text "Case None not found.", [SF.Call.queryCase "None"]) ∧
    ([SF.Call.queryCase "None"] : List SF.Call) ≠ [] :=
  ⟨by decide, rfl, by decide, by decide⟩

/-- C8 amended: only six handlers check some of their arguments before the
upstream call — `describe_sobject` (object_name), `draft_case_email`
(message), `send_case_email` (subject, body), `update_case` (fields),
`add_case_comment` (comment) and `create_knowledge_article` (title,
summary, content) — and those checks return a usage-error text with no CRM
call; every other required argument (e.g. `fetch`'s `id`, the `case_number`
arguments) is passed through to the adapter unchecked. -/
theorem C8_checked_args_block_dispatch (b : SF.Backend) (args : SF.ToolArgs)
    (ho : pyFalsy args.object_name = true)
    (hm : pyFalsy args.message = true)
    (hsb : pyFalsy args.subject = true ∨ pyFalsy args.body = true)
    (hf : args.fields = none ∨ args.fields = some [])
    (hc : pyFalsy args.comment = true)
    (ht : pyFalsy args.title = true ∨ pyFalsy args.summary = true ∨
      pyFalsy args.content = true) :
    SF.callTool b "describe_sobject" args =
      some (SF.ToolOut.text "Error: object_name is required.", []) ∧
    SF.callTool b "draft_case_email" args =
      some (SF.ToolOut.text "Error: message is required.", []) ∧
    SF.callTool b "send_case_email" args =
      some (SF.ToolOut.text "Error: subject and body are required.", []) ∧
    SF.callTool b "update_case" args =
      some (SF.ToolOut.text
        "Error: fields must be a dictionary of field names and values.", []) ∧
    SF.callTool b "add_case_comment" args =
      some (SF.ToolOut.text "Error: comment is required.", []) ∧
    SF.callTool b "create_knowledge_article" args =
      some (SF.ToolOut.text "Error: title, summary, and content are required.", []) := by
  refine ⟨?_, ?_, ?_, ?_, ?_, ?_⟩
  · simp [SF.callTool, ho]
  · simp [SF.callTool, hm]
  · rcases hsb with h | h <;> simp [SF.callTool, h]
  · rcases hf with h | h <;> simp [SF.callTool, h]
  · simp [SF.callTool, hc]
  · rcases ht with h | h | h <;> simp [SF.callTool, h]

/-- Witness for C8's amended theorem with every argument absent. -/
theorem C8_checked_args_block_dispatch_witness :
    SF.callTool emptyBackend "describe_sobject" {} =
      some (SF.ToolOut.text "Error: object_name is required.", []) ∧
    SF.callTool emptyBackend "draft_case_email" {} =
      some (SF.ToolOut.text "Error: message is required.", []) ∧
    SF.callTool emptyBackend "send_case_email" {} =
      some (SF.ToolOut.text "Error: subject and body are required.", []) ∧
    SF.callTool emptyBackend "update_case" {} =
      some (SF.ToolOut.text
        "Error: fields must be a dictionary of field names and values.", []) ∧
    SF.callTool emptyBackend "add_case_comment" {} =
      some (SF.ToolOut.text "Error: comment is required.", []) ∧
    SF.callTool emptyBackend "create_knowledge_article" {} =
      some (SF.ToolOut.text "Error: title, summary, and content are required.", []) :=
  C8_checked_args_block_dispatch emptyBackend {} (by decide) (by decide)
    (Or.inl (by decide)) (Or.inl rfl) (by decide) (Or.inl (by decide))

/-- C9 counterexample: the comments query and the SOSL full-text search
query carry no result-size cap — the text `LIMIT` occurs nowhere in either
query string. -/
theorem C9_uncapped_queries :
    strContains (SF.commentsQuery "500XX0000001") "LIMIT" = false ∧
    strContains (SF.soslQuery (SF._escape_sosl "crash")) "LIMIT" = false ∧
    (¬ ∃ p s, (SF.commentsQuery "500XX0000001").data =
      p ++ ((String.data "LIMIT") ++ s)) ∧
    (¬ ∃ p s, (SF.soslQuery (SF._escape_sosl "crash")).data =
      p ++ ((String.data "LIMIT") ++ s)) := by
  refine ⟨by decide, by decide, fun hex => ?_, fun hex => ?_⟩
  · exact absurd (strContains_of_decomp (SF.commentsQuery "500XX0000001")
      "LIMIT" hex) (by decide)
  · exact absurd (strContains_of_decomp (SF.soslQuery (SF._escape_sosl "crash"))
      "LIMIT" hex) (by decide)

/-- C9 amended: the partial-match search (`LIMIT 50`), history (`LIMIT 20`),
feed (`LIMIT 20`), related-cases (`LIMIT 10`), articles (`LIMIT 10`) and
emails (`LIMIT 50`) queries each carry a fixed result-size cap, for every
interpolated input; the SOSL full-text search and the comments query carry
none. -/
theorem C9_capped_queries (case_id conds wc : String) :
    (∃ p s, (SF.historyQuery case_id).data =
      p ++ ((String.data "LIMIT 20") ++ s)) ∧
    (∃ p s, (SF.feedQuery case_id).data =
      p ++ ((String.data "LIMIT 20") ++ s)) ∧
    (∃ p s, (SF.relatedQuery case_id conds).data =
      p ++ ((String.data "LIMIT 10") ++ s)) ∧
    (∃ p s, (SF.articlesQuery case_id).data =
      p ++ ((String.data "LIMIT 10") ++ s)) ∧
    (∃ p s, (SF.emailsQuery case_id).data =
      p ++ ((String.data "LIMIT 50") ++ s)) ∧
    (∃ p s, (SF.fuzzyQuery wc).data =
      p ++ ((String.data "LIMIT 50") ++ s)) := by
  have hh : (String.data " ORDER BY CreatedDate DESC LIMIT 20") =
      (String.data " ORDER BY CreatedDate DESC ") ++ (String.data "LIMIT 20") := by
    decide
  have hr : (String.data ") ORDER BY CreatedDate DESC LIMIT 10") =
      (String.data ") ORDER BY CreatedDate DESC ") ++ (String.data "LIMIT 10") := by
    decide
  have ha : (String.data " LIMIT 10") =
      (String.data " ") ++ (String.data "LIMIT 10") := by decide
  have he : (String.data " ORDER BY MessageDate DESC LIMIT 50") =
      (String.data " ORDER BY MessageDate DESC ") ++ (String.data "LIMIT 50") := by
    decide
  have hz : (String.data " ORDER BY LastModifiedDate DESC LIMIT 50") =
      (String.data " ORDER BY LastModifiedDate DESC ") ++ (String.data "LIMIT 50") := by
    decide
  refine
    ⟨⟨(String.data "SELECT Field, OldValue, NewValue, CreatedDate, CreatedBy.Name FROM CaseHistory WHERE CaseId = ") ++
        sqS.data ++ case_id.data ++ sqS.data ++
        (String.data " ORDER BY CreatedDate DESC "), [], ?_⟩,
     ⟨(String.data "SELECT Body, Type, CreatedDate, CreatedBy.Name FROM CaseFeed WHERE ParentId = ") ++
        sqS.data ++ case_id.data ++ sqS.data ++
        (String.data " ORDER BY CreatedDate DESC "), [], ?_⟩,
     ⟨(String.data "SELECT Id, CaseNumber, Subject, Status, CreatedDate FROM Case WHERE Id != ") ++
        sqS.data ++ case_id.data ++ sqS.data ++ (String.data " AND (") ++
        conds.data ++ (String.data ") ORDER BY CreatedDate DESC "), [], ?_⟩,
     ⟨(String.data "SELECT KnowledgeArticleId, KnowledgeArticle.Title, KnowledgeArticle.UrlName FROM CaseArticle WHERE CaseId = ") ++
        sqS.data ++ case_id.data ++ sqS.data ++ (String.data " "), [], ?_⟩,
     ⟨(String.data "SELECT Id, Subject, TextBody, HtmlBody, FromAddress, ToAddress, CcAddress, BccAddress, MessageDate, Incoming, Status, CreatedDate, CreatedById FROM EmailMessage WHERE RelatedToId = ") ++
        sqS.data ++ case_id.data ++ sqS.data ++
        (String.data " ORDER BY MessageDate DESC "), [], ?_⟩,
     ⟨(String.data "SELECT Id, CaseNumber, Subject, Status, Description FROM Case WHERE ") ++
        wc.data ++ (String.data " ORDER BY LastModifiedDate DESC "), [], ?_⟩⟩ <;>
    simp [SF.historyQuery, SF.feedQuery, SF.relatedQuery, SF.articlesQuery,
      SF.emailsQuery, SF.fuzzyQuery, String.data_append, hh, hr, ha, he, hz,
      List.append_assoc]

/-- C10: when article creation succeeds (directly or through the fallback
object), `create_knowledge_article` returns `success: true` with
`linked_case` echoing the supplied case number, and the returned result is
unchanged whether or not the case exists and whether or not the link
creation succeeds — the linking step is best-effort and its outcome is
never reported. -/
theorem C10_best_effort_article_link (b : SF.Backend)
    (title summary content cn aid : String)
    (h : b.kavCreateResult = Except.ok aid ∨
      (∃ e, b.kavCreateResult = Except.error e ∧
        b.kaCreateResult = Except.ok aid)) :
    (SF.create_knowledge_article b title summary content none (some cn)).1.success = true ∧
    (SF.create_knowledge_article b title summary content none (some cn)).1.linked_case = some cn ∧
    (SF.create_knowledge_article b title summary content none (some cn)).1.article_id = some aid ∧
    (∀ x y : Except String Unit,
      (SF.create_knowledge_article { b with caseArticleLinkResult := x }
        title summary content none (some cn)).1 =
      (SF.create_knowledge_article { b with caseArticleLinkResult := y }
        title summary content none (some cn)).1) ∧
    (∀ f g : String → Option SF.CaseRec,
      (SF.create_knowledge_article { b with cases := f }
        title summary content none (some cn)).1 =
      (SF.create_knowledge_article { b with cases := g }
        title summary content none (some cn)).1) := by
  rcases h with hk | ⟨e, hk, hk2⟩ <;>
    refine ⟨?_, ?_, ?_, fun x y => ?_, fun f g => ?_⟩ <;>
    simp [SF.create_knowledge_article, hk, *]

/-- Witness for C10 on a backend where the case lookup misses and the link
creation fails, yet the result reports success and echoes the case
number. -/
theorem C10_best_effort_article_link_witness :
    (SF.create_knowledge_article linkFailBackend "Crystal config" "s" "c"
      none (some "00335943")).1.success = true ∧
    (SF.create_knowledge_article linkFailBackend "Crystal config" "s" "c"
      none (some "00335943")).1.linked_case = some "00335943" ∧
    (SF.create_knowledge_article linkFailBackend "Crystal config" "s" "c"
      none (some "00335943")).1.article_id = some "ka-9" :=
  ⟨(C10_best_effort_article_link linkFailBackend "Crystal config" "s" "c"
      "00335943" "ka-9" (Or.inl rfl)).1,
   (C10_best_effort_article_link linkFailBackend "Crystal config" "s" "c"
      "00335943" "ka-9" (Or.inl rfl)).2.1,
   (C10_best_effort_article_link linkFailBackend "Crystal config" "s" "c"
      "00335943" "ka-9" (Or.inl rfl)).2.2.1⟩
